import Mathlib

/-
Verification of the PolicyGenie decision engine against its specification.

Shallow embedding of:
  * `app/services/fraud_service.py` — the fraud ensemble (`AdvancedFraudDetector.detect_fraud`
    and the four signal detectors);
  * `app/routes/claim.py` — the claims-adjudication pipeline (`process_claim_endpoint`
    and its helper stages);
  * `app/services/risk_service.py` — the risk aggregator (`_aggregate_risk_score`,
    `_make_underwriting_decision`, `_calculate_premium`, `assess_risk`);
  * the threshold defaults of `app/config.py`.

Python floats are modelled as rationals (ℚ); `round(x, n)` is modelled as
round-half-up over ℚ (Python rounds half to even on binary floats; the two agree
everywhere except at exact half-multiples of 10^(-n), and no value in this
development sits at one).  Dictionaries with optional keys are modelled as
structures with `Option` fields, `dict.get(k, d)` as `Option.getD`.  A Python
function that can raise to its caller is modelled as returning `Except String _`;
an `async` sub-computation that may have failed inside an exception-isolating
gather is modelled as an `Option` input.
-/

set_option autoImplicit false

namespace PolicyGenie

/-- Model of Python `round(q, n)` over ℚ: round to `n` decimal places, half up. -/
def roundTo (n : ℕ) (q : ℚ) : ℚ := (⌊q * 10 ^ n + 1 / 2⌋ : ℤ) / 10 ^ n

/-! ## Fraud ensemble — `app/services/fraud_service.py` -/

/-- Result of one signal detector (`_pattern_based_detection` etc.):
a score and a list of indicator strings. -/
structure DetectionResult where
  score : ℚ
  indicators : List String
deriving DecidableEq, Repr

/-- `detect_fraud`'s result dictionary.  `error` is `some _` exactly when the
degraded except-branch produced the result. -/
structure FraudResult where
  fraud_score : ℚ
  is_suspicious : Bool
  confidence : ℚ
  indicators : List String
  risk_level : String
  recommendation : String
  pattern_based : ℚ
  ml_based : ℚ
  sentiment_based : ℚ
  statistical : ℚ
  error : Option String
deriving DecidableEq, Repr

/-- `weights = [0.2, 0.4, 0.2, 0.2]` (line 141): pattern, ML model, sentiment,
statistical — "ML model gets highest weight". -/
def fraudWeights : List ℚ := [2/10, 4/10, 2/10, 2/10]

/-- `sum(s * w for s, w in zip(scores, weights))`: dot product that stops at the
shorter list, as `zip` does. -/
def dotSum : List ℚ → List ℚ → ℚ
  | x :: xs, y :: ys => x * y + dotSum xs ys
  | _, _ => 0

/-- Population mean, as `numpy` uses. -/
def listMean (l : List ℚ) : ℚ := l.sum / l.length

/-- Population variance `np.var`. -/
def listVar (l : List ℚ) : ℚ := ((l.map (fun x => (x - listMean l) ^ 2)).sum) / l.length

/-- `_calculate_confidence` (lines 315–323): fewer than two scores → 0.5;
otherwise `round(1 - min(variance * 2, 0.5), 3)`. -/
def calculateConfidence (scores : List ℚ) : ℚ :=
  if scores.length < 2 then 1/2
  else roundTo 3 (1 - min (listVar scores * 2) (1/2))

/-- `_assess_risk_level` (lines 325–340): fixed score bands for risk level and
recommendation. -/
def assessRiskLevel (score : ℚ) : String × String :=
  if score ≥ 85/100 then
    ("CRITICAL", "REJECT - High fraud probability. Escalate to fraud investigation unit.")
  else if score ≥ 75/100 then
    ("HIGH", "FLAG - Suspicious activity detected. Mandatory manual review required.")
  else if score ≥ 50/100 then
    ("MEDIUM", "REVIEW - Some fraud indicators present. Recommend additional verification.")
  else if score ≥ 30/100 then
    ("LOW", "PROCEED - Low risk, but monitor for patterns.")
  else
    ("MINIMAL", "APPROVE - No significant fraud indicators detected.")

/-- The degraded assessment returned by `detect_fraud`'s except-branch
(lines 172–182). -/
def degradedFraudResult (e : String) : FraudResult :=
  { fraud_score := 1/2
    is_suspicious := false
    confidence := 0
    indicators := ["Error in detection"]
    risk_level := "UNKNOWN"
    recommendation := "Manual review required due to system error"
    pattern_based := 0
    ml_based := 0
    sentiment_based := 0
    statistical := 0
    error := some e }

/-- `AdvancedFraudDetector.detect_fraud` (lines 91–182).

Inputs model the run's environment:
  * `loadOk` — whether `_load_models` succeeds; the call sits on line 111,
    *outside* the `try` block, and `_load_models` re-raises on failure (line 89);
  * `cached` — a live cache entry for this text's fingerprint, returned unchanged;
  * `pattern`, `ml`, `sentiment`, `statistical` — the outcome of each signal
    detector in the `asyncio.gather(..., return_exceptions=True)` fan-out
    (lines 121–127); `none` models a detector that raised.

Aggregation (lines 129–161): surviving scores are collected in canonical order,
zipped against the *prefix* of the weight list, and averaged; with no surviving
score the division `0 / 0` raises `ZeroDivisionError`, which the surrounding
except-branch converts into the degraded assessment. -/
def detectFraud (loadOk : Bool) (cached : Option FraudResult)
    (pattern ml sentiment statistical : Option DetectionResult)
    (fraudThreshold : ℚ) : Except String FraudResult :=
  if !loadOk then
    .error "Failed to load fraud models"
  else
    match cached with
    | some r => .ok r
    | none =>
      let results : List (Option DetectionResult) := [pattern, ml, sentiment, statistical]
      let fraudScores := results.filterMap (Option.map DetectionResult.score)
      let indicators := ((results.filterMap id).map DetectionResult.indicators).flatten
      if fraudScores.isEmpty then
        -- sum(weights[:0]) = 0 → ZeroDivisionError → except-branch
        .ok (degradedFraudResult "float division by zero")
      else
        let usedWeights := fraudWeights.take fraudScores.length
        let finalScore := dotSum fraudScores usedWeights / usedWeights.sum
        let rl := assessRiskLevel finalScore
        .ok
          { fraud_score := roundTo 3 finalScore
            is_suspicious := decide (finalScore > fraudThreshold)
            confidence := calculateConfidence fraudScores
            indicators := indicators.eraseDups
            risk_level := rl.1
            recommendation := rl.2
            pattern_based := fraudScores.getD 0 0
            ml_based := fraudScores.getD 1 0
            sentiment_based := fraudScores.getD 2 0
            statistical := fraudScores.getD 3 0
            error := none }

/-- Fraud score of a (non-raising) `detect_fraud` outcome. -/
def fraudScoreOf (e : Except String FraudResult) : Option ℚ :=
  match e with
  | .ok r => some r.fraud_score
  | .error _ => none

/-! ### The four signal detectors, over their text/metadata features.

Raw text processing (regex matching, tokenisation, the transformer calls) is
abstracted into the numeric features each detector actually branches on; the
scoring arithmetic is embedded verbatim. -/

/-- `_pattern_based_detection` (lines 184–213): `0.15` per matched fraud pattern
(of the six compiled patterns), `+0.1` for fewer than 20 words, `+0.05` for more
than three `!`, `+0.1` for more than five dates, capped at `1.0`.
`patternMatches` is the number of the six compiled patterns that match. -/
def patternBasedDetection (patternMatches wordCount exclamationCount dateCount : ℕ) : ℚ :=
  let score : ℚ := (patternMatches : ℚ) * (15/100)
  let score := if wordCount < 20 then score + 1/10 else score
  let score := if exclamationCount > 3 then score + 5/100 else score
  let score := if dateCount > 5 then score + 1/10 else score
  min score 1

/-- `_ml_based_detection` (lines 215–237): a fraud-labelled classification maps
to its confidence, any other label to `1 - confidence`; an internal exception
yields `0.5`. -/
def mlBasedDetection (outcome : Option (Bool × ℚ)) : ℚ :=
  match outcome with
  | none => 1/2
  | some (fraudLabel, conf) => if fraudLabel then conf else 1 - conf

/-- `_sentiment_based_detection` (lines 239–261): extreme negative sentiment
(confidence > 0.95) scores `0.3`, extreme positive `0.2`, anything else `0`;
an internal exception yields `0`. -/
def sentimentBasedDetection (outcome : Option (String × ℚ)) : ℚ :=
  match outcome with
  | none => 0
  | some (label, conf) =>
    if label = "NEGATIVE" ∧ conf > 95/100 then 3/10
    else if label = "POSITIVE" ∧ conf > 95/100 then 2/10
    else 0

/-- `_statistical_anomaly_detection` (lines 263–295): `+0.1` for mean word
length above 10, `+0.15` for claim amount above 50000, capped at `1.0`;
an internal exception yields `0`. -/
def statisticalAnomalyDetection (outcome : Option (ℚ × ℚ)) : ℚ :=
  match outcome with
  | none => 0
  | some (meanWordLength, claimAmount) =>
    let score : ℚ := if meanWordLength > 10 then 1/10 else 0
    let score := if claimAmount > 50000 then score + 15/100 else score
    min score 1

/-! ## Claims adjudication — `app/routes/claim.py` -/

/-- The `document_verification` sub-dictionary (lines 198–203). -/
structure DocVerification where
  declared_and_verified : List String
  declared_but_unverified : List String
  missing : List String
deriving DecidableEq, Repr

/-- The adjudication result dictionary, restricted to the fields the decision
logic reads or writes.  `Option` fields model keys the parsed LLM JSON may
lack; `missing_documents` is read only through `.get(_, [])`, so an absent key
is indistinguishable from `[]` and it is modelled as a plain list. -/
structure ClaimResult where
  verdict : Option String
  fraud_risk : Option String
  fraud_score : Option ℚ
  missing_documents : List String
  document_verification : Option DocVerification
  fraud_signals_found : List String
  reason : Option String
  claimant_message : Option String
  required_documents_checklist : List String
  next_steps : List String
deriving DecidableEq, Repr

/-- `list(dict.fromkeys(l))`: deduplicate keeping the first occurrence of each
element, preserving order. -/
def dedupKeepFirst (seen : List String) : List String → List String
  | [] => []
  | x :: xs =>
    if x ∈ seen then dedupKeepFirst seen xs
    else x :: dedupKeepFirst (x :: seen) xs

/-- `_build_under_investigation_response` (lines 32–79): the investigator-handoff
payload returned when the ML fraud pre-filter flags the claim. -/
def buildUnderInvestigationResponse (fraudResult : FraudResult) : ClaimResult :=
  { verdict := some "UNDER_INVESTIGATION"
    fraud_risk := some "HIGH"
    fraud_score := some (roundTo 3 fraudResult.fraud_score)
    missing_documents := []
    document_verification := none
    fraud_signals_found := fraudResult.indicators
    reason := some ("Our automated fraud detection system identified one or more high-risk signals "
      ++ "in this claim submission. In keeping with company policy and regulatory "
      ++ "obligations, this claim has been escalated to a senior claims investigator "
      ++ "for manual review.")
    claimant_message := some ("Dear Claimant,\n\n"
      ++ "Thank you for submitting your claim. Our system has flagged certain aspects "
      ++ "of this submission for further review by our specialist claims team. A "
      ++ "dedicated investigator will contact you within 2–3 business days.\n\n"
      ++ "You are welcome to re-submit with additional supporting documentation at "
      ++ "any time. We appreciate your patience and understanding.\n\n"
      ++ "Warm regards,\nPolicyGenie Claims Department")
    required_documents_checklist :=
      [ "Government-issued photo ID"
      , "Original policy certificate"
      , "Incident report / police report"
      , "Two independent witness statements"
      , "Photographs of damage / evidence"
      , "Itemised cost estimate or receipts" ]
    next_steps :=
      [ "A senior claims investigator will contact you within 2–3 business days."
      , "Gather all supporting documents and keep them ready."
      , "Do not repair or dispose of damaged items until the investigation is complete."
      , "You may re-submit with additional evidence at any time via this portal." ] }

/-- The deterministic fallback synthesised when the LLM output fails to parse
(lines 173–195). -/
def parseFallbackResult (fraudScore : ℚ) : ClaimResult :=
  { verdict := some "UNDER_INVESTIGATION"
    fraud_risk := some "MEDIUM"
    fraud_score := some fraudScore
    missing_documents := []
    document_verification := some ⟨[], [], []⟩
    fraud_signals_found := ["System could not fully evaluate the claim narrative"]
    reason := some "Claim routed for manual review due to a processing anomaly."
    claimant_message := some ("Dear Claimant,\n\nYour claim is being reviewed by our team. "
      ++ "We will contact you within 2–3 business days.\n\n"
      ++ "Warm regards,\nPolicyGenie Claims Department")
    required_documents_checklist := ["Incident report", "Photo evidence", "Policy certificate"]
    next_steps := ["Await contact from a claims representative within 2–3 business days."] }

/-- Stage E (lines 197–205): ensure the `document_verification` key exists. -/
def stageEnsureDocVerification (r : ClaimResult) : ClaimResult :=
  { r with document_verification := some (r.document_verification.getD ⟨[], [], []⟩) }

/-- Stage F (lines 207–213): the ML fraud override — a pre-filter score of at
least 0.65 forces an LLM `APPROVED` verdict to `UNDER_INVESTIGATION` with
`fraud_risk = HIGH`. -/
def stageFraudOverride (fraudScore : ℚ) (r : ClaimResult) : ClaimResult :=
  if fraudScore ≥ 65/100 ∧ r.verdict = some "APPROVED" then
    { r with verdict := some "UNDER_INVESTIGATION"
             fraud_risk := some "HIGH"
             fraud_score := some fraudScore }
  else r

/-- The merged deduplicated insufficiency list of stage G (lines 216–222):
legacy `missing_documents` ++ `declared_but_unverified` ++ `missing`,
first occurrences kept. -/
def mergedInsufficiency (r : ClaimResult) : List String :=
  let docVer := r.document_verification.getD ⟨[], [], []⟩
  dedupKeepFirst []
    (r.missing_documents ++ docVer.declared_but_unverified ++ docVer.missing)

/-- Stage G (lines 215–227): store the merged insufficiency list and, when it is
non-empty and the verdict is `APPROVED`, force `PENDING_DOCUMENTS`.  (The source
first writes the merged list into `result["missing_documents"]` and then
conditionally overwrites the verdict; the two writes are independent, so they
are modelled as one conditional update.) -/
def stageDocumentOverride (r : ClaimResult) : ClaimResult :=
  if ¬(mergedInsufficiency r).isEmpty ∧ r.verdict = some "APPROVED" then
    { r with missing_documents := mergedInsufficiency r, verdict := some "PENDING_DOCUMENTS" }
  else
    { r with missing_documents := mergedInsufficiency r }

/-- `_enrich_pending_response` (lines 82–101). -/
def enrichPendingResponse (r : ClaimResult) : ClaimResult :=
  if (r.claimant_message.getD "").length < 30 then
    let missingList :=
      if r.missing_documents.isEmpty then "  • See required documents checklist below"
      else String.intercalate "\n" (r.missing_documents.map (fun d => "  • " ++ d))
    { r with claimant_message := some ("Dear Claimant,\n\n"
        ++ "Thank you for reaching out to us. Your claim appears to be largely valid "
        ++ "and we genuinely want to help you through this process.\n\n"
        ++ "However, we are unable to proceed to approval at this stage because the "
        ++ "following required document(s) have not been submitted:\n\n"
        ++ missingList ++ "\n\n"
        ++ "Please gather these documents and re-submit your claim through this portal. "
        ++ "Once we receive the complete documentation, your claim will be processed "
        ++ "as a priority.\n\n"
        ++ "We are here to support you — please don\x27t hesitate to contact our "
        ++ "helpline if you need assistance obtaining any of these documents.\n\n"
        ++ "Warm regards,\nPolicyGenie Claims Department") }
  else r

/-- `_enrich_rejected_response` (lines 104–119). -/
def enrichRejectedResponse (r : ClaimResult) : ClaimResult :=
  if (r.claimant_message.getD "").length < 30 then
    { r with claimant_message := some ("Dear Claimant,\n\n"
        ++ "Thank you for submitting your claim. After careful review against your "
        ++ "policy terms and conditions, we regret to inform you that this claim "
        ++ "cannot be approved at this time.\n\n"
        ++ "Reason: "
        ++ r.reason.getD "The incident does not fall within the covered perils of your policy."
        ++ "\n\n"
        ++ "If you believe this decision is incorrect or if you have additional "
        ++ "information that may change the outcome, you have the right to appeal "
        ++ "within 30 days by contacting our disputes resolution team.\n\n"
        ++ "We value your trust in PolicyGenie and remain committed to serving you.\n\n"
        ++ "Warm regards,\nPolicyGenie Claims Department") }
  else r

/-- Final fraud-score merge (line 239):
`result["fraud_score"] = round(max(prefilter, result.get("fraud_score", 0.0)), 3)`. -/
def stageFinalFraudScore (fraudScore : ℚ) (r : ClaimResult) : ClaimResult :=
  { r with fraud_score := some (roundTo 3 (max fraudScore (r.fraud_score.getD 0))) }

/-- `process_claim_endpoint` (lines 122–252), from the fraud pre-filter onward.

`fraudResult` is the pre-filter ensemble assessment (Stage A).  `llm` models
Stages B–D's external interaction: `.error e` is the LLM adjudication call
itself raising (propagated by the outer handler as a 500 failure), `.ok none`
a response whose JSON failed to parse (replaced by the deterministic fallback),
`.ok (some r)` a parsed result.  Stage H (echoing `submitted_documents`) has no
effect on the modelled fields and is omitted. -/
def processClaim (fraudResult : FraudResult)
    (llm : Except String (Option ClaimResult)) : Except String ClaimResult :=
  let fraudScore := fraudResult.fraud_score
  if fraudResult.is_suspicious then
    .ok (buildUnderInvestigationResponse fraudResult)
  else
    match llm with
    | .error e => .error ("Claims processing failed: " ++ e)
    | .ok parsed =>
      let result := match parsed with
        | some r => r
        | none => parseFallbackResult fraudScore
      let result := stageEnsureDocVerification result
      let result := stageFraudOverride fraudScore result
      let result := stageDocumentOverride result
      let verdict := result.verdict.getD "UNDER_INVESTIGATION"
      let result :=
        if verdict = "PENDING_DOCUMENTS" then enrichPendingResponse result
        else if verdict = "REJECTED" then enrichRejectedResponse result
        else result
      .ok (stageFinalFraudScore fraudScore result)

/-! ## Risk aggregator — `app/services/risk_service.py` -/

/-- The underwriting thresholds of `app/config.py` (lines 62–65). -/
structure Thresholds where
  auto_approve_threshold : ℚ
  auto_reject_threshold : ℚ
  requires_human_review_min : ℚ
  requires_human_review_max : ℚ
deriving DecidableEq, Repr

/-- The config defaults: approve ≤ 30, reject ≥ 85, review band 70–85. -/
def defaultThresholds : Thresholds :=
  { auto_approve_threshold := 30
    auto_reject_threshold := 85
    requires_human_review_min := 70
    requires_human_review_max := 85 }

/-- `_make_underwriting_decision` (lines 406–417): the ordered decision ladder,
returning the decision and its confidence. -/
def makeUnderwritingDecision (cfg : Thresholds) (riskScore : ℚ) : String × ℚ :=
  if riskScore ≤ cfg.auto_approve_threshold then ("APPROVE", 95/100)
  else if riskScore ≥ cfg.auto_reject_threshold then ("REJECT", 90/100)
  else if cfg.requires_human_review_min ≤ riskScore ∧
          riskScore ≤ cfg.requires_human_review_max then ("MANUAL_REVIEW", 70/100)
  else if riskScore < cfg.requires_human_review_min then ("APPROVE", 80/100)
  else ("REJECT", 85/100)

/-- `base_rates.get(policy_type, 1000)` (lines 427–434). -/
def baseRates (policyType : String) : ℚ :=
  if policyType = "life" then 500
  else if policyType = "health" then 3000
  else if policyType = "auto" then 1200
  else if policyType = "home" then 800
  else 1000

/-- The premium dictionary produced by `_calculate_premium`. -/
structure Premium where
  annual : ℚ
  monthly : ℚ
  base_rate : ℚ
  risk_multiplier : ℚ
deriving DecidableEq, Repr

/-- `_calculate_premium` (lines 419–446):
`annual = (coverage / 100000) * base_rate * (1 + risk_score / 100)`,
monthly a twelfth of it, both rounded to cents. -/
def calculatePremium (riskScore coverageAmount : ℚ) (policyType : String) : Premium :=
  let baseRate := baseRates policyType
  let riskMultiplier := 1 + riskScore / 100
  let annualPremium := (coverageAmount / 100000) * baseRate * riskMultiplier
  { annual := roundTo 2 annualPremium
    monthly := roundTo 2 (annualPremium / 12)
    base_rate := baseRate
    risk_multiplier := roundTo 2 riskMultiplier }

/-- `_aggregate_risk_score` (lines 388–404): base + financial adjustment +
external adjustment, plus `fraud_score * 30` when a fraud result is present
with score above 0.5, clamped to [0, 100]. -/
def aggregateRiskScore (baseScore financialAdj externalAdj : ℚ)
    (fraud : Option FraudResult) : ℚ :=
  let score := baseScore + financialAdj + externalAdj
  let score :=
    match fraud with
    | some f => if f.fraud_score > 1/2 then score + f.fraud_score * 30 else score
    | none => score
  min (max score 0) 100

/-- The fields of `assess_risk`'s result dictionary that the claims concern.
`premium` and `confidence` are absent on the fraud short-circuit and error
fallback paths. -/
structure RiskOut where
  risk_score : ℚ
  decision : String
  confidence : Option ℚ
  premium : Option Premium
  reason : Option String
  error : Option String
deriving DecidableEq, Repr

/-- `AdvancedRiskAssessor.assess_risk` (lines 89–210), after model loading
(`_load_models` here swallows its own failures, lines 84–87, so it never
raises).

Inputs model the run:
  * `pipelineError` — `some e` when an unexpected exception is raised anywhere
    inside the `try` block (e.g. by the detailed-assessment generation); the
    except-branch (lines 202–210) turns it into the manual-review fallback;
  * `base`, `financial`, `external` — the gathered sub-assessment outcomes
    (lines 117–135); a failed task (`none`) degrades to the documented default
    (base score 50, adjustment 0);
  * `fraud` — the fraud-check outcome: `none` when disabled or failed
    (line 136). -/
def assessRisk (pipelineError : Option String)
    (base financial external : Option ℚ) (fraud : Option FraudResult)
    (policyType : String) (coverageAmount : Option ℚ) (cfg : Thresholds) : RiskOut :=
  match pipelineError with
  | some e =>
    { risk_score := 50
      decision := "MANUAL_REVIEW"
      confidence := none
      premium := none
      reason := some ("Error in automated assessment: " ++ e)
      error := some e }
  | none =>
    let baseScore := base.getD 50
    let financialAdj := financial.getD 0
    let externalAdj := external.getD 0
    if (match fraud with | some f => f.is_suspicious | none => false) then
      { risk_score := 100
        decision := "REJECT"
        confidence := none
        premium := none
        reason := some "Application flagged for potential fraud"
        error := none }
    else
      let finalScore := aggregateRiskScore baseScore financialAdj externalAdj fraud
      let dc := makeUnderwritingDecision cfg finalScore
      let premium := calculatePremium finalScore (coverageAmount.getD 100000) policyType
      { risk_score := roundTo 2 finalScore
        decision := dc.1
        confidence := some dc.2
        premium := some premium
        reason := none
        error := none }

/-! ## Helper lemmas -/

theorem dotSum_nonneg (xs ys : List ℚ) (hx : ∀ x ∈ xs, 0 ≤ x) (hy : ∀ y ∈ ys, 0 ≤ y) :
    0 ≤ dotSum xs ys := by
  induction xs generalizing ys with
  | nil => cases ys <;> simp [dotSum]
  | cons x xs ih =>
    cases ys with
    | nil => simp [dotSum]
    | cons y ys =>
      simp only [dotSum]
      have h1 : 0 ≤ x * y := mul_nonneg (hx x (by simp)) (hy y (by simp))
      have h2 : 0 ≤ dotSum xs ys :=
        ih ys (fun a ha => hx a (by simp [ha])) (fun a ha => hy a (by simp [ha]))
      linarith

theorem dotSum_le_sum (xs ys : List ℚ) (hx : ∀ x ∈ xs, x ≤ 1) (hy : ∀ y ∈ ys, 0 ≤ y) :
    dotSum xs ys ≤ ys.sum := by
  induction xs generalizing ys with
  | nil =>
    cases ys with
    | nil => simp [dotSum]
    | cons y ys => simpa [dotSum] using List.sum_nonneg hy
  | cons x xs ih =>
    cases ys with
    | nil => simp [dotSum]
    | cons y ys =>
      simp only [dotSum, List.sum_cons]
      have h1 : x * y ≤ y := mul_le_of_le_one_left (hy y (by simp)) (hx x (by simp))
      have h2 : dotSum xs ys ≤ ys.sum :=
        ih ys (fun a ha => hx a (by simp [ha])) (fun a ha => hy a (by simp [ha]))
      linarith

theorem roundTo_nonneg (n : ℕ) (q : ℚ) (h : 0 ≤ q) : 0 ≤ roundTo n q := by
  unfold roundTo
  apply div_nonneg _ (by positivity)
  have hfl : (0 : ℤ) ≤ ⌊q * 10 ^ n + 1 / 2⌋ := by
    apply Int.le_floor.mpr
    push_cast
    positivity
  exact_mod_cast hfl

theorem roundTo_le (n : ℕ) (q : ℚ) (M : ℤ) (h : q ≤ M) : roundTo n q ≤ M := by
  unfold roundTo
  rw [div_le_iff₀ (by positivity)]
  have hfl : ⌊q * 10 ^ n + 1 / 2⌋ < M * 10 ^ n + 1 := by
    apply Int.floor_lt.mpr
    push_cast
    have h10 : (0 : ℚ) < 10 ^ n := by positivity
    nlinarith [mul_le_mul_of_nonneg_right h (le_of_lt h10)]
  have hle : ⌊q * 10 ^ n + 1 / 2⌋ ≤ M * 10 ^ n := by omega
  calc (⌊q * 10 ^ n + 1 / 2⌋ : ℚ) ≤ (M * 10 ^ n : ℤ) := by exact_mod_cast hle
    _ = (M : ℚ) * 10 ^ n := by push_cast; ring

theorem takeFraudWeights_sum_pos (k : ℕ) (hk : 1 ≤ k) : 0 < (fraudWeights.take k).sum := by
  have hrest : ∀ n : ℕ, 0 ≤ (([4/10, 2/10, 2/10] : List ℚ).take n).sum := by
    intro n
    rcases n with _ | _ | _ | n <;> simp [List.take] <;> norm_num
  rcases k with _ | k
  · omega
  · simp only [fraudWeights, List.take_succ_cons, List.sum_cons]
    have hr := hrest k
    norm_num at hr ⊢
    linarith

theorem stageFinalFraudScore_proj (q : ℚ) (r : ClaimResult) :
    (stageFinalFraudScore q r).verdict = r.verdict ∧
    (stageFinalFraudScore q r).fraud_risk = r.fraud_risk ∧
    (stageFinalFraudScore q r).missing_documents = r.missing_documents :=
  ⟨rfl, rfl, rfl⟩

theorem enrichPendingResponse_proj (r : ClaimResult) :
    (enrichPendingResponse r).verdict = r.verdict ∧
    (enrichPendingResponse r).fraud_risk = r.fraud_risk ∧
    (enrichPendingResponse r).missing_documents = r.missing_documents := by
  unfold enrichPendingResponse
  split <;> exact ⟨rfl, rfl, rfl⟩

theorem enrichRejectedResponse_proj (r : ClaimResult) :
    (enrichRejectedResponse r).verdict = r.verdict ∧
    (enrichRejectedResponse r).fraud_risk = r.fraud_risk ∧
    (enrichRejectedResponse r).missing_documents = r.missing_documents := by
  unfold enrichRejectedResponse
  split <;> exact ⟨rfl, rfl, rfl⟩

/-- Stages H–I never change the verdict, the fraud risk, or the merged
missing-documents list computed at Stage G. -/
theorem finalizeStages_proj (q : ℚ) (x : ClaimResult) :
    (stageFinalFraudScore q
      (if x.verdict.getD "UNDER_INVESTIGATION" = "PENDING_DOCUMENTS" then enrichPendingResponse x
       else if x.verdict.getD "UNDER_INVESTIGATION" = "REJECTED" then enrichRejectedResponse x
       else x)).verdict = x.verdict ∧
    (stageFinalFraudScore q
      (if x.verdict.getD "UNDER_INVESTIGATION" = "PENDING_DOCUMENTS" then enrichPendingResponse x
       else if x.verdict.getD "UNDER_INVESTIGATION" = "REJECTED" then enrichRejectedResponse x
       else x)).fraud_risk = x.fraud_risk ∧
    (stageFinalFraudScore q
      (if x.verdict.getD "UNDER_INVESTIGATION" = "PENDING_DOCUMENTS" then enrichPendingResponse x
       else if x.verdict.getD "UNDER_INVESTIGATION" = "REJECTED" then enrichRejectedResponse x
       else x)).missing_documents = x.missing_documents := by
  split_ifs
  · exact ⟨(enrichPendingResponse_proj x).1, (enrichPendingResponse_proj x).2.1,
      (enrichPendingResponse_proj x).2.2⟩
  · exact ⟨(enrichRejectedResponse_proj x).1, (enrichRejectedResponse_proj x).2.1,
      (enrichRejectedResponse_proj x).2.2⟩
  · exact ⟨rfl, rfl, rfl⟩

/-- After Stage G, a non-empty merged missing-documents list rules out an
`APPROVED` verdict. -/
theorem stageDocumentOverride_not_approved (r : ClaimResult)
    (h : (stageDocumentOverride r).missing_documents ≠ []) :
    (stageDocumentOverride r).verdict ≠ some "APPROVED" := by
  unfold stageDocumentOverride at h ⊢
  by_cases hc : ¬(mergedInsufficiency r).isEmpty ∧ r.verdict = some "APPROVED"
  · rw [if_pos hc]
    simp
  · rw [if_neg hc] at h ⊢
    simp only at h ⊢
    intro hv
    exact hc ⟨by simpa [List.isEmpty_iff] using h, hv⟩

theorem stageDocumentOverride_forces (r : ClaimResult)
    (hv : r.verdict = some "APPROVED") (hm : mergedInsufficiency r ≠ []) :
    (stageDocumentOverride r).verdict = some "PENDING_DOCUMENTS" := by
  unfold stageDocumentOverride
  rw [if_pos ⟨by simpa [List.isEmpty_iff] using hm, hv⟩]

theorem stageDocumentOverride_keeps (r : ClaimResult) (h : r.verdict ≠ some "APPROVED") :
    (stageDocumentOverride r).verdict = r.verdict ∧
    (stageDocumentOverride r).fraud_risk = r.fraud_risk := by
  unfold stageDocumentOverride
  rw [if_neg (fun hc => h hc.2)]
  exact ⟨rfl, rfl⟩

theorem aggregateRiskScore_bounds (base fin ext : ℚ) (fraud : Option FraudResult) :
    0 ≤ aggregateRiskScore base fin ext fraud ∧ aggregateRiskScore base fin ext fraud ≤ 100 := by
  unfold aggregateRiskScore
  exact ⟨le_min (le_max_right _ _) (by norm_num), min_le_right _ _⟩

/-! ## Claim theorems -/

/-- C2: In the claims adjudicator's override checks, for every run in which the
ensemble pre-filter fraud score is at least 0.65 and the parsed grounded-decision
verdict is `APPROVED`, the final verdict is forced to `UNDER_INVESTIGATION` with
`fraud_risk` set to `HIGH`; and when the verdict is anything other than
`APPROVED`, the Stage-F override leaves the result unchanged. -/
theorem C2_fraud_score_override :
    (∀ (fr : FraudResult) (r : ClaimResult),
      fr.fraud_score ≥ 65/100 → r.verdict = some "APPROVED" →
      ∃ res, processClaim fr (Except.ok (some r)) = Except.ok res ∧
        res.verdict = some "UNDER_INVESTIGATION" ∧ res.fraud_risk = some "HIGH") ∧
    (∀ (q : ℚ) (r : ClaimResult), r.verdict ≠ some "APPROVED" →
      stageFraudOverride q r = r) := by
  constructor
  · intro fr r hscore hv
    unfold processClaim
    by_cases hs : fr.is_suspicious
    · rw [if_pos hs]
      exact ⟨_, rfl, rfl, rfl⟩
    · rw [if_neg hs]
      simp only
      refine ⟨_, rfl, ?_⟩
      have hF : stageFraudOverride fr.fraud_score (stageEnsureDocVerification r) =
          { stageEnsureDocVerification r with
              verdict := some "UNDER_INVESTIGATION"
              fraud_risk := some "HIGH"
              fraud_score := some fr.fraud_score } := by
        unfold stageFraudOverride
        rw [if_pos ⟨hscore, hv⟩]
      rw [hF]
      have hG := stageDocumentOverride_keeps { stageEnsureDocVerification r with
          verdict := some "UNDER_INVESTIGATION"
          fraud_risk := some "HIGH"
          fraud_score := some fr.fraud_score } (by simp)
      rw [hG.1]
      simp only [Option.getD_some]
      exact ⟨hG.1, hG.2⟩
  · intro q r h
    unfold stageFraudOverride
    rw [if_neg (fun hc => h hc.2)]

/-- A pre-filter assessment with fraud score 0.70, below the suspicion threshold
but above the 0.65 override cut-off. -/
def moderateFraudPrefilter : FraudResult :=
  { fraud_score := 7/10, is_suspicious := false, confidence := 1, indicators := [],
    risk_level := "MEDIUM", recommendation := "REVIEW", pattern_based := 0, ml_based := 0,
    sentiment_based := 0, statistical := 0, error := none }

/-- A parsed grounded decision that approved the claim outright. -/
def approvedCleanDecision : ClaimResult :=
  { verdict := some "APPROVED", fraud_risk := some "LOW", fraud_score := some (1/10),
    missing_documents := [], document_verification := some ⟨["Photo ID"], [], []⟩,
    fraud_signals_found := [], reason := none, claimant_message := none,
    required_documents_checklist := [], next_steps := [] }

/-- Witness for C2 at a concrete run. -/
theorem C2_fraud_score_override_witness :
    ∃ res, processClaim moderateFraudPrefilter (Except.ok (some approvedCleanDecision))
        = Except.ok res ∧
      res.verdict = some "UNDER_INVESTIGATION" ∧ res.fraud_risk = some "HIGH" :=
  C2_fraud_score_override.1 moderateFraudPrefilter approvedCleanDecision
    (by norm_num [moderateFraudPrefilter]) rfl

/-- C7: For every adjudication run whose pre-filter fraud assessment reports
`is_suspicious`, the pipeline returns the investigator-handoff payload with
verdict `UNDER_INVESTIGATION`, and its outcome is independent of whatever the
grounded-decision interaction would have produced — the LLM stage never runs. -/
theorem C7_prefilter_short_circuit :
    ∀ (fr : FraudResult) (llm llm' : Except String (Option ClaimResult)),
      fr.is_suspicious = true →
      processClaim fr llm = Except.ok (buildUnderInvestigationResponse fr) ∧
      (buildUnderInvestigationResponse fr).verdict = some "UNDER_INVESTIGATION" ∧
      processClaim fr llm = processClaim fr llm' := by
  intro fr llm llm' h
  refine ⟨?_, rfl, ?_⟩
  · unfold processClaim
    rw [if_pos h]
  · unfold processClaim
    rw [if_pos h, if_pos h]

/-- A pre-filter assessment flagged as suspicious. -/
def suspiciousPrefilter : FraudResult :=
  { fraud_score := 9/10, is_suspicious := true, confidence := 1,
    indicators := ["Pattern match: fake"], risk_level := "CRITICAL",
    recommendation := "REJECT", pattern_based := 9/10, ml_based := 0,
    sentiment_based := 0, statistical := 0, error := none }

/-- Witness for C7 at a concrete run, with two different grounded-decision
outcomes yielding the identical response. -/
theorem C7_prefilter_short_circuit_witness :
    processClaim suspiciousPrefilter (Except.ok none)
      = Except.ok (buildUnderInvestigationResponse suspiciousPrefilter) ∧
    (buildUnderInvestigationResponse suspiciousPrefilter).verdict
      = some "UNDER_INVESTIGATION" ∧
    processClaim suspiciousPrefilter (Except.ok none)
      = processClaim suspiciousPrefilter (Except.error "generation failed") :=
  C7_prefilter_short_circuit suspiciousPrefilter (Except.ok none)
    (Except.error "generation failed") rfl

/-- C5: The underwriting decision follows the exact ordered ladder of
`_make_underwriting_decision` — approve at or below the auto-approve threshold,
else reject at or above the auto-reject threshold, else manual review inside the
review band, else approve below the band, else reject — and at the default
thresholds a score of exactly 30 approves, exactly 85 rejects, and 71 (one unit
inside the 70–85 review band) goes to manual review. -/
theorem C5_decision_ladder :
    (∀ (cfg : Thresholds) (s : ℚ),
      (s ≤ cfg.auto_approve_threshold → (makeUnderwritingDecision cfg s).1 = "APPROVE") ∧
      (¬s ≤ cfg.auto_approve_threshold → s ≥ cfg.auto_reject_threshold →
        (makeUnderwritingDecision cfg s).1 = "REJECT") ∧
      (¬s ≤ cfg.auto_approve_threshold → ¬s ≥ cfg.auto_reject_threshold →
        cfg.requires_human_review_min ≤ s ∧ s ≤ cfg.requires_human_review_max →
        (makeUnderwritingDecision cfg s).1 = "MANUAL_REVIEW") ∧
      (¬s ≤ cfg.auto_approve_threshold → ¬s ≥ cfg.auto_reject_threshold →
        ¬(cfg.requires_human_review_min ≤ s ∧ s ≤ cfg.requires_human_review_max) →
        s < cfg.requires_human_review_min → (makeUnderwritingDecision cfg s).1 = "APPROVE") ∧
      (¬s ≤ cfg.auto_approve_threshold → ¬s ≥ cfg.auto_reject_threshold →
        ¬(cfg.requires_human_review_min ≤ s ∧ s ≤ cfg.requires_human_review_max) →
        ¬s < cfg.requires_human_review_min → (makeUnderwritingDecision cfg s).1 = "REJECT")) ∧
    (makeUnderwritingDecision defaultThresholds 30).1 = "APPROVE" ∧
    (makeUnderwritingDecision defaultThresholds 85).1 = "REJECT" ∧
    (makeUnderwritingDecision defaultThresholds 71).1 = "MANUAL_REVIEW" := by
  refine ⟨fun cfg s => ⟨?_, ?_, ?_, ?_, ?_⟩, ?_, ?_, ?_⟩
  · intro h1
    unfold makeUnderwritingDecision
    rw [if_pos h1]
  · intro h1 h2
    unfold makeUnderwritingDecision
    rw [if_neg h1, if_pos h2]
  · intro h1 h2 h3
    unfold makeUnderwritingDecision
    rw [if_neg h1, if_neg h2, if_pos h3]
  · intro h1 h2 h3 h4
    unfold makeUnderwritingDecision
    rw [if_neg h1, if_neg h2, if_neg h3, if_pos h4]
  · intro h1 h2 h3 h4
    unfold makeUnderwritingDecision
    rw [if_neg h1, if_neg h2, if_neg h3, if_neg h4]
  · norm_num [makeUnderwritingDecision, defaultThresholds]
  · norm_num [makeUnderwritingDecision, defaultThresholds]
  · norm_num [makeUnderwritingDecision, defaultThresholds]

/-- Witness for C5: the first ladder rung applied at score 20 under the default
thresholds. -/
theorem C5_decision_ladder_witness :
    (makeUnderwritingDecision defaultThresholds 20).1 = "APPROVE" :=
  (C5_decision_ladder.1 defaultThresholds 20).1 (by norm_num [defaultThresholds])

/-- C9: For the four known policy types the premium follows
`annual = (coverage / 100000) * base_rate * (1 + score / 100)` and
`monthly = annual / 12` (both reported to cents) with base rates
life 500, health 3000, auto 1200, home 800; in particular auto coverage
200000 at risk score 40 gives multiplier 1.4 and annual premium 3360.00. -/
theorem C9_premium_formula :
    (∀ coverage score : ℚ,
      (calculatePremium score coverage "life").base_rate = 500 ∧
      (calculatePremium score coverage "life").annual
        = roundTo 2 ((coverage / 100000) * 500 * (1 + score / 100)) ∧
      (calculatePremium score coverage "life").monthly
        = roundTo 2 (((coverage / 100000) * 500 * (1 + score / 100)) / 12) ∧
      (calculatePremium score coverage "health").base_rate = 3000 ∧
      (calculatePremium score coverage "health").annual
        = roundTo 2 ((coverage / 100000) * 3000 * (1 + score / 100)) ∧
      (calculatePremium score coverage "health").monthly
        = roundTo 2 (((coverage / 100000) * 3000 * (1 + score / 100)) / 12) ∧
      (calculatePremium score coverage "auto").base_rate = 1200 ∧
      (calculatePremium score coverage "auto").annual
        = roundTo 2 ((coverage / 100000) * 1200 * (1 + score / 100)) ∧
      (calculatePremium score coverage "auto").monthly
        = roundTo 2 (((coverage / 100000) * 1200 * (1 + score / 100)) / 12) ∧
      (calculatePremium score coverage "home").base_rate = 800 ∧
      (calculatePremium score coverage "home").annual
        = roundTo 2 ((coverage / 100000) * 800 * (1 + score / 100)) ∧
      (calculatePremium score coverage "home").monthly
        = roundTo 2 (((coverage / 100000) * 800 * (1 + score / 100)) / 12)) ∧
    calculatePremium 40 200000 "auto"
      = { annual := 3360, monthly := 280, base_rate := 1200, risk_multiplier := 7/5 } := by
  constructor
  · intro coverage score
    refine ⟨?_, ?_, ?_, ?_, ?_, ?_, ?_, ?_, ?_, ?_, ?_, ?_⟩ <;>
      simp [calculatePremium, baseRates]
  · simp [calculatePremium, baseRates]
    norm_num [roundTo]

/-- C10: Any unexpected exception inside the risk-assessment pipeline after
model loading is absorbed: `assess_risk` returns the manual-review fallback with
`risk_score = 50`, `decision = MANUAL_REVIEW` and the error string, instead of
raising. -/
theorem C10_risk_pipeline_fallback :
    ∀ (e : String) (base financial external : Option ℚ) (fraud : Option FraudResult)
      (policyType : String) (coverage : Option ℚ) (cfg : Thresholds),
      assessRisk (some e) base financial external fraud policyType coverage cfg
        = { risk_score := 50, decision := "MANUAL_REVIEW", confidence := none,
            premium := none, reason := some ("Error in automated assessment: " ++ e),
            error := some e } :=
  fun _ _ _ _ _ _ _ _ => rfl

/-- C4 (amended): When all four fraud detectors succeed, the ensemble
`fraud_score` is the weighted average Σ(score_i × weight_i) / Σ(weight_i) with
weights [pattern 0.2, model 0.4, sentiment 0.2, statistical 0.2], rounded to 3
decimals; in particular detector scores [0.2, 0.8, 0.4, 0.6] yield
`fraud_score = 0.56` (not 0.52 as the spec computes). -/
theorem C4_weighted_aggregation :
    (∀ (s0 s1 s2 s3 : ℚ) (i0 i1 i2 i3 : List String) (th : ℚ),
      fraudScoreOf (detectFraud true none (some ⟨s0, i0⟩) (some ⟨s1, i1⟩)
          (some ⟨s2, i2⟩) (some ⟨s3, i3⟩) th)
        = some (roundTo 3 ((s0 * (2/10) + s1 * (4/10) + s2 * (2/10) + s3 * (2/10))
            / ((2/10) + (4/10) + (2/10) + (2/10))))) ∧
    fraudScoreOf (detectFraud true none (some ⟨2/10, []⟩) (some ⟨8/10, []⟩)
        (some ⟨4/10, []⟩) (some ⟨6/10, []⟩) (3/4)) = some (56/100) := by
  constructor
  · intro s0 s1 s2 s3 i0 i1 i2 i3 th
    simp only [detectFraud, fraudScoreOf, Bool.not_true, if_false, List.filterMap_cons,
      Option.map_some, List.filterMap_nil, List.isEmpty_cons]
    norm_num [dotSum, fraudWeights]
    congr 1
    ring
  · simp only [detectFraud, fraudScoreOf, Bool.not_true, if_false, List.filterMap_cons,
      Option.map_some, List.filterMap_nil, List.isEmpty_cons]
    norm_num [dotSum, fraudWeights, roundTo]

/-- Counterexample to C4 as stated: detector scores [0.2, 0.8, 0.4, 0.6] with
full weights produce 0.56, not the 0.52 the claim expects
(0.2×0.2 + 0.8×0.4 + 0.4×0.2 + 0.6×0.2 = 0.56). -/
theorem C4_weighted_aggregation_counterexample :
    fraudScoreOf (detectFraud true none (some ⟨2/10, []⟩) (some ⟨8/10, []⟩)
        (some ⟨4/10, []⟩) (some ⟨6/10, []⟩) (3/4)) ≠ some (52/100) ∧
    fraudScoreOf (detectFraud true none (some ⟨2/10, []⟩) (some ⟨8/10, []⟩)
        (some ⟨4/10, []⟩) (some ⟨6/10, []⟩) (3/4)) = some (56/100) := by
  constructor <;>
  · simp only [detectFraud, fraudScoreOf, Bool.not_true, if_false, List.filterMap_cons,
      Option.map_some, List.filterMap_nil, List.isEmpty_cons]
    norm_num [dotSum, fraudWeights, roundTo]

/-- The aggregation C3 describes for the model-detector-failure scenario,
following the spec's words: the three surviving detectors keep their canonical
weights [0.2, 0.2, 0.2] (pattern, sentiment, statistical) and the average is
renormalized by their sum 0.6. -/
def specSurvivorRenormScore (p s st : ℚ) : ℚ :=
  (p * (2/10) + s * (2/10) + st * (2/10)) / ((2/10) + (2/10) + (2/10))

/-- C3 (amended): if the model-based detector fails but the pattern, sentiment,
and statistical detectors succeed, the ensemble still produces a result rather
than an error, but it renormalizes the three surviving scores over the weight
*prefix* [0.2, 0.4, 0.2] summing to 0.8 — weights are assigned to survivors by
position, so sentiment inherits the model weight 0.4 and the relative weighting
among successful detectors is not preserved. -/
theorem C3_model_failure_degradation :
    ∀ (p s st : DetectionResult) (th : ℚ),
      (∃ r, detectFraud true none (some p) none (some s) (some st) th = Except.ok r) ∧
      fraudScoreOf (detectFraud true none (some p) none (some s) (some st) th)
        = some (roundTo 3 ((p.score * (2/10) + s.score * (4/10) + st.score * (2/10))
            / ((2/10) + (4/10) + (2/10)))) := by
  intro p s st th
  constructor
  · exact ⟨_, rfl⟩
  · simp only [detectFraud, fraudScoreOf, Bool.not_true, if_false, List.filterMap_cons,
      Option.map_some, Option.map_none, List.filterMap_nil, List.isEmpty_cons]
    norm_num [dotSum, fraudWeights]
    congr 1
    ring

/-- Counterexample to C3 as stated: with pattern 0, sentiment 1, statistical 0
and the model detector failed, the code produces (0×0.2 + 1×0.4 + 0×0.2)/0.8 =
0.5, while the renormalization the claim describes gives
(0×0.2 + 1×0.2 + 0×0.2)/0.6 = 0.333. -/
theorem C3_model_failure_degradation_counterexample :
    fraudScoreOf (detectFraud true none (some ⟨0, []⟩) none (some ⟨1, []⟩)
        (some ⟨0, []⟩) (3/4)) = some (1/2) ∧
    roundTo 3 (specSurvivorRenormScore 0 1 0) = 333/1000 ∧
    (1/2 : ℚ) ≠ 333/1000 := by
  refine ⟨?_, ?_, by norm_num⟩
  · simp only [detectFraud, fraudScoreOf, Bool.not_true, if_false, List.filterMap_cons,
      Option.map_some, Option.map_none, List.filterMap_nil, List.isEmpty_cons]
    norm_num [dotSum, fraudWeights, roundTo]
  · norm_num [specSurvivorRenormScore, roundTo]

/-- C6 (amended): once the detection models have loaded, `detect_fraud` never
raises: every run returns a result, and total failure of all four detectors
yields the degraded assessment with `fraud_score = 0.5`,
`is_suspicious = false`, `risk_level = UNKNOWN` and an explicit system-error
indicator.  A model-loading failure, however, happens outside the `try` block
and propagates to the caller. -/
theorem C6_fraud_ensemble_failure_semantics :
    (∀ (cached : Option FraudResult) (p m s st : Option DetectionResult) (th : ℚ),
      ∃ r, detectFraud true cached p m s st th = Except.ok r) ∧
    (∀ th : ℚ, detectFraud true none none none none none th
        = Except.ok (degradedFraudResult "float division by zero")) ∧
    (degradedFraudResult "float division by zero").fraud_score = 1/2 ∧
    (degradedFraudResult "float division by zero").is_suspicious = false ∧
    (degradedFraudResult "float division by zero").risk_level = "UNKNOWN" ∧
    (degradedFraudResult "float division by zero").error.isSome = true ∧
    (∀ (cached : Option FraudResult) (p m s st : Option DetectionResult) (th : ℚ),
      detectFraud false cached p m s st th = Except.error "Failed to load fraud models") := by
  refine ⟨?_, fun th => rfl, rfl, rfl, rfl, rfl, fun cached p m s st th => rfl⟩
  intro cached p m s st th
  unfold detectFraud
  simp only [Bool.not_true, Bool.false_eq_true, if_false]
  cases cached with
  | some c => exact ⟨c, rfl⟩
  | none =>
    by_cases hemp : (([p, m, s, st].filterMap (Option.map DetectionResult.score))).isEmpty
    · exact ⟨_, by rw [if_pos hemp]⟩
    · exact ⟨_, by rw [if_neg hemp]⟩

/-- Counterexample to C6 as stated ("never raises to the caller, for every
input"): when `_load_models` fails, the exception propagates, because the call
sits outside the `try` block. -/
theorem C6_fraud_ensemble_failure_semantics_counterexample :
    detectFraud false none none none none none (3/4)
      = Except.error "Failed to load fraud models" := rfl

/-- C8: Every signal detector yields a score in [0, 1] (the model-based one
provided its classifier confidence is a probability), the ensemble
`fraud_score` stays in [0, 1] whenever the surviving detector scores do, the
risk aggregate is clamped to [0, 100], the fraud short-circuit reports
`risk_score = 100`, the error fallback reports 50, and every `assess_risk`
result has `risk_score` in [0, 100]. -/
theorem C8_score_bounds :
    (∀ pm wc ec dc : ℕ,
      0 ≤ patternBasedDetection pm wc ec dc ∧ patternBasedDetection pm wc ec dc ≤ 1) ∧
    (∀ o : Option (Bool × ℚ), (∀ b c, o = some (b, c) → 0 ≤ c ∧ c ≤ 1) →
      0 ≤ mlBasedDetection o ∧ mlBasedDetection o ≤ 1) ∧
    (∀ o : Option (String × ℚ),
      0 ≤ sentimentBasedDetection o ∧ sentimentBasedDetection o ≤ 1) ∧
    (∀ o : Option (ℚ × ℚ),
      0 ≤ statisticalAnomalyDetection o ∧ statisticalAnomalyDetection o ≤ 1) ∧
    (∀ (p m s st : Option DetectionResult) (th : ℚ) (r : FraudResult),
      (∀ d, p = some d → 0 ≤ d.score ∧ d.score ≤ 1) →
      (∀ d, m = some d → 0 ≤ d.score ∧ d.score ≤ 1) →
      (∀ d, s = some d → 0 ≤ d.score ∧ d.score ≤ 1) →
      (∀ d, st = some d → 0 ≤ d.score ∧ d.score ≤ 1) →
      detectFraud true none p m s st th = Except.ok r →
      0 ≤ r.fraud_score ∧ r.fraud_score ≤ 1) ∧
    (∀ (base fin ext : ℚ) (fraud : Option FraudResult),
      0 ≤ aggregateRiskScore base fin ext fraud ∧
      aggregateRiskScore base fin ext fraud ≤ 100) ∧
    (∀ (f : FraudResult) (base fin ext : Option ℚ) (pt : String) (cov : Option ℚ)
      (cfg : Thresholds), f.is_suspicious = true →
      (assessRisk none base fin ext (some f) pt cov cfg).risk_score = 100) ∧
    (∀ (e : String) (base fin ext : Option ℚ) (fraud : Option FraudResult) (pt : String)
      (cov : Option ℚ) (cfg : Thresholds),
      (assessRisk (some e) base fin ext fraud pt cov cfg).risk_score = 50) ∧
    (∀ (pe : Option String) (base fin ext : Option ℚ) (fraud : Option FraudResult)
      (pt : String) (cov : Option ℚ) (cfg : Thresholds),
      0 ≤ (assessRisk pe base fin ext fraud pt cov cfg).risk_score ∧
      (assessRisk pe base fin ext fraud pt cov cfg).risk_score ≤ 100) := by
  refine ⟨?_, ?_, ?_, ?_, ?_, aggregateRiskScore_bounds, ?_, fun _ _ _ _ _ _ _ _ => rfl, ?_⟩
  · intro pm wc ec dc
    unfold patternBasedDetection
    split_ifs <;> exact ⟨le_min (by positivity) (by norm_num), min_le_right _ _⟩
  · intro o h
    unfold mlBasedDetection
    cases o with
    | none => norm_num
    | some bc =>
      obtain ⟨b, c⟩ := bc
      have hc := h b c rfl
      dsimp only
      cases b
      · rw [if_neg (by simp)]
        constructor <;> linarith [hc.1, hc.2]
      · rw [if_pos rfl]
        exact hc
  · intro o
    unfold sentimentBasedDetection
    cases o with
    | none => norm_num
    | some lc =>
      obtain ⟨l, c⟩ := lc
      dsimp only
      split_ifs <;> norm_num
  · intro o
    unfold statisticalAnomalyDetection
    cases o with
    | none => norm_num
    | some mc =>
      obtain ⟨mw, ca⟩ := mc
      dsimp only
      split_ifs <;> exact ⟨le_min (by norm_num) (by norm_num), min_le_right _ _⟩
  · intro p m s st th r hp hm hs hst hok
    simp only [detectFraud, Bool.not_true, Bool.false_eq_true, if_false] at hok
    set L := ([p, m, s, st].filterMap (Option.map DetectionResult.score)) with hL
    have hbound : ∀ x ∈ L, 0 ≤ x ∧ x ≤ 1 := by
      intro x hx
      rw [hL] at hx
      simp only [List.mem_filterMap] at hx
      obtain ⟨o, ho, hmap⟩ := hx
      cases o with
      | none => exact Option.noConfusion hmap
      | some d =>
        have hscore : d.score = x := by
          simp only [Option.map] at hmap
          injection hmap
        subst hscore
        simp only [List.mem_cons, List.not_mem_nil, or_false] at ho
        rcases ho with h | h | h | h
        · exact hp d h.symm
        · exact hm d h.symm
        · exact hs d h.symm
        · exact hst d h.symm
    by_cases hemp : L.isEmpty
    · rw [if_pos hemp] at hok
      cases hok
      norm_num [degradedFraudResult]
    · rw [if_neg hemp] at hok
      cases hok
      simp only
      have hlen : 1 ≤ L.length := by
        rcases L with _ | ⟨a, as⟩
        · simp at hemp
        · simp
      have hwpos : 0 < (fraudWeights.take L.length).sum := takeFraudWeights_sum_pos _ hlen
      have hwnn : ∀ y ∈ fraudWeights.take L.length, 0 ≤ y := by
        intro y hy
        have hmem : y ∈ fraudWeights := List.take_subset _ _ hy
        fin_cases hmem <;> norm_num
      have hnum0 : 0 ≤ dotSum L (fraudWeights.take L.length) :=
        dotSum_nonneg _ _ (fun x hx => (hbound x hx).1) hwnn
      have hnum1 : dotSum L (fraudWeights.take L.length) ≤ (fraudWeights.take L.length).sum :=
        dotSum_le_sum _ _ (fun x hx => (hbound x hx).2) hwnn
      constructor
      · exact roundTo_nonneg 3 _ (div_nonneg hnum0 (le_of_lt hwpos))
      · have h1 : dotSum L (fraudWeights.take L.length) / (fraudWeights.take L.length).sum ≤ 1 :=
          (div_le_one hwpos).mpr hnum1
        have h2 := roundTo_le 3 _ 1 (by exact_mod_cast h1)
        simpa using h2
  · intro f base fin ext pt cov cfg hf
    simp [assessRisk, hf]
  · intro pe base fin ext fraud pt cov cfg
    unfold assessRisk
    cases pe with
    | some e => norm_num
    | none =>
      simp only
      split
      · norm_num
      · simp only
        have hb := aggregateRiskScore_bounds (base.getD 50) (fin.getD 0) (ext.getD 0) fraud
        refine ⟨roundTo_nonneg 2 _ hb.1, ?_⟩
        have h100 := roundTo_le 2 _ 100 (by exact_mod_cast hb.2)
        exact_mod_cast h100

/-- Witness for C8's hypothesis-bearing conjuncts: the model-based detector at a
concrete classifier outcome. -/
theorem C8_score_bounds_witness :
    0 ≤ mlBasedDetection (some (true, 9/10)) ∧ mlBasedDetection (some (true, 9/10)) ≤ 1 :=
  C8_score_bounds.2.1 (some (true, 9/10)) (by
    intro b c h
    cases h
    norm_num)

/-- C1 (amended): if the merged deduplicated insufficiency list (legacy
`missing_documents` ∪ `declared_but_unverified` ∪ `missing`) is non-empty, the
final verdict is never `APPROVED`; and when the verdict is still `APPROVED` as
the document override runs (that is, the Stage-F fraud-score override did not
already rewrite it), the verdict is forced to `PENDING_DOCUMENTS`. -/
theorem C1_missing_documents_block_approval :
    (∀ (fr : FraudResult) (llm : Except String (Option ClaimResult)) (res : ClaimResult),
      processClaim fr llm = Except.ok res → res.missing_documents ≠ [] →
      res.verdict ≠ some "APPROVED") ∧
    (∀ (fr : FraudResult) (r : ClaimResult),
      fr.is_suspicious = false →
      (stageFraudOverride fr.fraud_score (stageEnsureDocVerification r)).verdict
        = some "APPROVED" →
      mergedInsufficiency (stageFraudOverride fr.fraud_score (stageEnsureDocVerification r))
        ≠ [] →
      ∃ res, processClaim fr (Except.ok (some r)) = Except.ok res ∧
        res.verdict = some "PENDING_DOCUMENTS") := by
  constructor
  · intro fr llm res hok hne
    unfold processClaim at hok
    by_cases hs : fr.is_suspicious
    · rw [if_pos hs] at hok
      cases hok
      exact absurd rfl hne
    · rw [if_neg hs] at hok
      cases llm with
      | error e => exact Except.noConfusion hok
      | ok parsed =>
        simp only at hok
        cases parsed with
        | none =>
          cases hok
          have hp := finalizeStages_proj fr.fraud_score
            (stageDocumentOverride (stageFraudOverride fr.fraud_score
              (stageEnsureDocVerification (parseFallbackResult fr.fraud_score))))
          rw [hp.1]
          rw [hp.2.2] at hne
          exact stageDocumentOverride_not_approved _ hne
        | some r0 =>
          cases hok
          have hp := finalizeStages_proj fr.fraud_score
            (stageDocumentOverride (stageFraudOverride fr.fraud_score
              (stageEnsureDocVerification r0)))
          rw [hp.1]
          rw [hp.2.2] at hne
          exact stageDocumentOverride_not_approved _ hne
  · intro fr r hs hv hm
    unfold processClaim
    rw [if_neg (by simp [hs])]
    simp only
    refine ⟨_, rfl, ?_⟩
    have hG : (stageDocumentOverride (stageFraudOverride fr.fraud_score
        (stageEnsureDocVerification r))).verdict = some "PENDING_DOCUMENTS" :=
      stageDocumentOverride_forces _ hv hm
    have hp := finalizeStages_proj fr.fraud_score
      (stageDocumentOverride (stageFraudOverride fr.fraud_score
        (stageEnsureDocVerification r)))
    rw [hp.1]
    exact hG

/-- A pre-filter assessment below every override threshold. -/
def lowFraudPrefilter : FraudResult :=
  { fraud_score := 1/10, is_suspicious := false, confidence := 1, indicators := [],
    risk_level := "MINIMAL", recommendation := "APPROVE", pattern_based := 1/10,
    ml_based := 0, sentiment_based := 0, statistical := 0, error := none }

/-- A parsed grounded decision that approved the claim even though the
document-verification step classified the police report as missing. -/
def approvedDespiteMissingDoc : ClaimResult :=
  { verdict := some "APPROVED", fraud_risk := some "LOW", fraud_score := some (1/10),
    missing_documents := [], document_verification := some ⟨["Photo ID"], [], ["Police report"]⟩,
    fraud_signals_found := [], reason := none, claimant_message := none,
    required_documents_checklist := [], next_steps := [] }

/-- Witness for C1 at a concrete run: low fraud score, approved verdict, one
missing document — the final verdict becomes `PENDING_DOCUMENTS`. -/
theorem C1_missing_documents_block_approval_witness :
    ∃ res, processClaim lowFraudPrefilter (Except.ok (some approvedDespiteMissingDoc))
        = Except.ok res ∧ res.verdict = some "PENDING_DOCUMENTS" :=
  C1_missing_documents_block_approval.2 lowFraudPrefilter approvedDespiteMissingDoc rfl
    (by norm_num [stageFraudOverride, stageEnsureDocVerification, lowFraudPrefilter,
      approvedDespiteMissingDoc])
    (by norm_num [stageFraudOverride, stageEnsureDocVerification, mergedInsufficiency,
      dedupKeepFirst, lowFraudPrefilter, approvedDespiteMissingDoc])

/-- Counterexample to C1 as stated: with pre-filter fraud score 0.70 (≥ 0.65,
yet below the suspicion threshold) and a grounded decision of `APPROVED` with a
missing document, the Stage-F fraud override fires first, so the final verdict
is `UNDER_INVESTIGATION` — not `PENDING_DOCUMENTS` as the claim demands — even
though the merged insufficiency list is non-empty. -/
theorem C1_missing_documents_block_approval_counterexample :
    approvedDespiteMissingDoc.verdict = some "APPROVED" ∧
    Except.map ClaimResult.missing_documents
        (processClaim moderateFraudPrefilter (Except.ok (some approvedDespiteMissingDoc)))
      = Except.ok ["Police report"] ∧
    Except.map ClaimResult.verdict
        (processClaim moderateFraudPrefilter (Except.ok (some approvedDespiteMissingDoc)))
      = Except.ok (some "UNDER_INVESTIGATION") ∧
    some "UNDER_INVESTIGATION" ≠ some "PENDING_DOCUMENTS" := by
  refine ⟨rfl, ?_, ?_, by simp⟩ <;>
  · norm_num [processClaim, moderateFraudPrefilter, approvedDespiteMissingDoc,
      stageEnsureDocVerification, stageFraudOverride, stageDocumentOverride,
      mergedInsufficiency, dedupKeepFirst, stageFinalFraudScore,
      enrichPendingResponse, enrichRejectedResponse]
    simp [Except.map]

end PolicyGenie
